import Mathlib

/-!
# Verification of the listmonk_clone campaign manager

Shallow embedding of the campaign-sending pipeline, the template DAL and the
tracking-event DAL of `listmonk_clone/campaign_manager` (files `tasks.py`,
`db_access/campaigns_db.py`, `db_access/subscribers_db.py`,
`db_access/subscriptions_db.py`, `db_access/templates_db.py`,
`db_access/tracking_events_db.py`).

MongoDB collections are modelled as Lean lists of structures, in insertion
order (queries without an explicit sort return natural order).  `find_one`
and `update_one` act on the first matching document, `update_many` on all
matching documents, `skip`/`limit` are `List.drop`/`List.take`.

MongoDB update documents are modelled by the `MVal` tree.  Applying an update
document can fail: an update whose top-level key is not an update operator,
or whose field path contains a `$`-prefixed segment (such as `stats.$inc`),
is rejected by the server with a write error, which pymongo raises as an
exception.  Failure is modelled by `Option`/`Outcome.raised`, carrying the
database state at the moment the exception is raised.
-/

namespace ListmonkClone

/-- Campaign stats subdocument, initialised by `create_campaign` to all
zeroes (`campaigns_db.py`, `create_campaign`). -/
structure Stats where
  to_send : Int
  sent : Int
  failed : Int
  views : Int
  clicks : Int
  bounces : Int
  unsubscribes : Int
deriving Repr, DecidableEq

/-- The all-zero stats document that `create_campaign` installs. -/
def Stats.zero : Stats := ⟨0, 0, 0, 0, 0, 0, 0⟩

/-- A campaign document.  `id` stands for the Mongo `_id` ObjectId; fields
not used by any claim (content, tags, timestamps, …) are omitted. -/
structure Campaign where
  id : Nat
  uuid : String
  name : String
  status : String
  target_list_ids : List Nat
  template_id : Option Nat
  stats : Stats
deriving Repr, DecidableEq

/-- A subscriber document (`subscribers` collection). -/
structure Subscriber where
  id : Nat
  uuid : String
  email : String
  name : String
  status : String
deriving Repr, DecidableEq

/-- A subscription document (`subscriptions` collection): join of a
subscriber and a mailing list with its own status. -/
structure Subscription where
  subscriber_id : Nat
  list_id : Nat
  status : String
deriving Repr, DecidableEq

/-- A template document (`templates` collection). -/
structure Template where
  id : Nat
  uuid : String
  name : String
  template_type : String
  body_html : String
  is_default : Bool
deriving Repr, DecidableEq

/-- A tracking event document (`tracking_events` collection).
`processed_for_stats_at` is `none` for unprocessed events; `some t` once
`mark_events_as_processed` has stamped the event. -/
structure TrackingEvent where
  id : Nat
  event_type : String
  campaign_uuid : String
  subscriber_uuid : String
  link_uuid_ref : Option String
  link_url : Option String
  timestamp : Int
  user_agent : Option String
  ip_address : Option String
  processed_for_stats_at : Option Int
deriving Repr, DecidableEq

/-- The database plus two ghost observation logs: `outbox` records each
simulated email send performed by `send_email_to_subscriber_batch_task`
(campaign uuid, subscriber id), and `dispatched_batches` records each batch
handed to the batch task by `process_campaign_sending_task`.  `next_event_id`
models Mongo's fresh `_id` generation for `insert_one` on tracking events. -/
structure Db where
  campaigns : List Campaign
  subscribers : List Subscriber
  subscriptions : List Subscription
  templates : List Template
  tracking_events : List TrackingEvent
  next_event_id : Nat
  outbox : List (String × Nat)
  dispatched_batches : List (List Nat)
deriving Repr, DecidableEq

/-- Result of running a task body: `ok` is normal return, `raised` is an
uncaught exception; both carry the database state at that moment (writes
performed before the exception persist). -/
inductive Outcome (α : Type) where
  | ok (db : Db) (a : α)
  | raised (db : Db)
deriving Repr, DecidableEq

/-- The database state an outcome leaves behind. -/
def Outcome.db {α : Type} : Outcome α → Db
  | .ok d _ => d
  | .raised d => d

/-- Whether the task raised. -/
def Outcome.isRaised {α : Type} : Outcome α → Bool
  | .ok _ _ => false
  | .raised _ => true

/-! ## Mongo update documents -/

/-- A Mongo/BSON value as appearing in update documents. -/
inductive MVal where
  | int (n : Int)
  | str (s : String)
  | obj (kvs : List (String × MVal))
deriving Repr

/-- Python-dict lookup on an association list. -/
def dictGet (d : List (String × MVal)) (k : String) : Option MVal :=
  (d.find? (fun p => p.1 == k)).map (fun p => p.2)

/-- Python-dict assignment `d[k] = v`: overwrite in place, else append
(Python dicts preserve insertion order). -/
def dictSet (d : List (String × MVal)) (k : String) (v : MVal) : List (String × MVal) :=
  if d.any (fun p => p.1 == k) then
    d.map (fun p => if p.1 == k then (k, v) else p)
  else d ++ [(k, v)]

/-- Python `d.setdefault(op, {})[k] = v` where the value under `op` is a
dict (in every call site of `update_campaign_stats` the value under an
operator key is a dict, so the non-dict case is unreachable). -/
def dictSetIn (d : List (String × MVal)) (op k : String) (v : MVal) : List (String × MVal) :=
  let inner := match dictGet d op with
    | some (.obj kvs) => kvs
    | _ => []
  dictSet d op (.obj (dictSet inner k v))

/-- Python `s.startswith(p)`, computed on the underlying character lists
(so that the kernel can evaluate it; `String.startsWith` is compiled with
well-founded recursion). -/
def strStartsWith (s p : String) : Bool :=
  decide (s.data.take p.data.length = p.data)

/-- Whether an `MVal` is a dict whose keys include a `$`-prefixed one:
the Python test `isinstance(value, dict) and any(op.startswith('$') for op
in value.keys())` in `update_campaign_stats`. -/
def isOperatorDict : MVal → Bool
  | .obj kvs => kvs.any (fun p => strStartsWith p.1 "$")
  | _ => false

/-- Whether an `MVal` is numeric: `isinstance(value, (int, float))`. -/
def isNumVal : MVal → Bool
  | .int _ => true
  | _ => false

/-- One iteration of the `for key, value in stats_update.items()` loop in
`campaigns_db.update_campaign_stats` (campaigns_db.py lines 221-233),
translated branch for branch. -/
def statsUpdateStep (ud : List (String × MVal)) (key : String) (value : MVal) :
    List (String × MVal) :=
  if strStartsWith key "stats." && isOperatorDict value then
    -- value is already an operator dict like {"$inc": 1}
    let ud := if (dictGet ud key).isSome then ud else dictSet ud key (.obj [])
    match value with
    | .obj ops => ops.foldl (fun u p => dictSetIn u p.1 key p.2) ud
    | _ => ud
  else if strStartsWith key "stats." then
    dictSetIn ud "$set" key value
  else if isNumVal value then
    dictSetIn ud "$inc" ("stats." ++ key) value
  else
    dictSetIn ud "$set" ("stats." ++ key) value

/-- The update document `campaigns_db.update_campaign_stats` builds from its
`stats_update` argument and passes to `update_one`; `none` models the early
`return 0` when the built document is empty (no write is performed).
`now` is the `updated_at` timestamp. -/
def buildStatsUpdateDoc (stats_update : List (String × MVal)) (now : Int) :
    Option (List (String × MVal)) :=
  let ud := stats_update.foldl (fun u kv => statsUpdateStep u kv.1 kv.2) []
  if ud.isEmpty then none
  else
    let ud := if (dictGet ud "$set").isSome then ud else dictSet ud "$set" (.obj [])
    some (dictSetIn ud "$set" "updated_at" (.int now))

/-- Whether the character list contains a `$` at a segment start, i.e. at
the very beginning (`atSegStart` initially true) or right after a `.`. -/
def containsDollarSegment : List Char → Bool → Bool
  | [], _ => false
  | c :: rest, atSegStart =>
    if atSegStart && c == '$' then true
    else containsDollarSegment rest (c == '.')

/-- A field path is rejected by the MongoDB server when one of its
dot-separated segments is `$`-prefixed (update operators cannot address
`$`-prefixed field names; the server raises e.g. "The dollar ($) prefixed
field '$inc' in 'stats.$inc' is not valid for storage"). -/
def pathRejected (path : String) : Bool :=
  containsDollarSegment path.data true

/-- Effect of a `$set` of one field on a campaign document.  Paths outside the modelled
projection are ignored (setting them does not touch any modelled field);
the timestamp fields are not modelled.  Setting a modelled numeric counter
to a non-number never occurs in the program and is modelled as a failure. -/
def setCampaignField (c : Campaign) (path : String) (v : MVal) : Option Campaign :=
  if pathRejected path then none
  else if path = "stats.to_send" then
    match v with | .int n => some { c with stats := { c.stats with to_send := n } } | _ => none
  else if path = "stats.sent" then
    match v with | .int n => some { c with stats := { c.stats with sent := n } } | _ => none
  else if path = "stats.failed" then
    match v with | .int n => some { c with stats := { c.stats with failed := n } } | _ => none
  else if path = "stats.views" then
    match v with | .int n => some { c with stats := { c.stats with views := n } } | _ => none
  else if path = "stats.clicks" then
    match v with | .int n => some { c with stats := { c.stats with clicks := n } } | _ => none
  else some c

/-- Effect of a `$inc` of one field on a campaign document. -/
def incCampaignField (c : Campaign) (path : String) (v : MVal) : Option Campaign :=
  if pathRejected path then none
  else if path = "stats.to_send" then
    match v with | .int n => some { c with stats := { c.stats with to_send := c.stats.to_send + n } } | _ => none
  else if path = "stats.sent" then
    match v with | .int n => some { c with stats := { c.stats with sent := c.stats.sent + n } } | _ => none
  else if path = "stats.failed" then
    match v with | .int n => some { c with stats := { c.stats with failed := c.stats.failed + n } } | _ => none
  else if path = "stats.views" then
    match v with | .int n => some { c with stats := { c.stats with views := c.stats.views + n } } | _ => none
  else if path = "stats.clicks" then
    match v with | .int n => some { c with stats := { c.stats with clicks := c.stats.clicks + n } } | _ => none
  else some c

/-- Apply a whole update document to one campaign document.  A top-level
key that is not a known update operator is rejected (pymongo/Mongo refuse
non-operator top-level keys in `update_one`). -/
def applyUpdateDoc (c : Campaign) (doc : List (String × MVal)) : Option Campaign :=
  doc.foldl
    (fun oc kv =>
      oc.bind (fun c =>
        if kv.1 == "$set" then
          match kv.2 with
          | .obj kvs => kvs.foldl (fun o p => o.bind (fun c => setCampaignField c p.1 p.2)) (some c)
          | _ => none
        else if kv.1 == "$inc" then
          match kv.2 with
          | .obj kvs => kvs.foldl (fun o p => o.bind (fun c => incCampaignField c p.1 p.2)) (some c)
          | _ => none
        else none))
    (some c)

/-- Model of `update_one({"uuid": uuid}, doc)` over the campaigns collection: apply
the update to the first matching document; matching nothing is a successful
no-op; a rejected update is a failure. -/
def updateFirstCampaign (cs : List Campaign) (uuid : String)
    (doc : List (String × MVal)) : Option (List Campaign) :=
  match cs with
  | [] => some []
  | c :: rest =>
    if c.uuid == uuid then (applyUpdateDoc c doc).map (fun c => c :: rest)
    else (updateFirstCampaign rest uuid doc).map (fun r => c :: r)

/-! ## campaigns_db -/

/-- Model of `campaigns_db.get_campaign_by_id`: `find_one({"_id": ObjectId(id)})`. -/
def get_campaign_by_id (db : Db) (cid : Nat) : Option Campaign :=
  db.campaigns.find? (fun c => c.id == cid)

/-- Model of `update_one({"uuid": uuid}, {"$set": {"status": st, ...}})`: set the
status of the first campaign whose uuid matches. -/
def setStatusFirst : List Campaign → String → String → List Campaign
  | [], _, _ => []
  | c :: cs, uuid, st =>
    if c.uuid == uuid then { c with status := st } :: cs
    else c :: setStatusFirst cs uuid st

/-- Model of `campaigns_db.update_campaign_status`: `update_one({"uuid": uuid},
{"$set": {"status": new_status, ...timestamps}})`.  The status path is
always valid, so this write never fails; the `started_at`/`finished_at`
timestamps it also sets are not modelled. -/
def update_campaign_status (db : Db) (uuid new_status : String) : Db :=
  { db with campaigns := setStatusFirst db.campaigns uuid new_status }

/-- Model of `campaigns_db.update_campaign_stats` (campaigns_db.py lines 211-243):
build the update document from `stats_update` via the operator-inspection
loop, then `update_one({"uuid": uuid}, update_doc)`.  Returns `none` when
the write is rejected by the server (exception raised to the caller). -/
def update_campaign_stats (db : Db) (uuid : String)
    (stats_update : List (String × MVal)) (now : Int) : Option Db :=
  match buildStatsUpdateDoc stats_update now with
  | none => some db
  | some doc =>
    (updateFirstCampaign db.campaigns uuid doc).map (fun cs => { db with campaigns := cs })

/-- Model of `templates_db.get_template_by_id`: `find_one({"_id": ...})`. -/
def get_template_by_id (db : Db) (tid : Nat) : Option Template :=
  db.templates.find? (fun t => t.id == tid)

/-! ## subscribers_db and subscriptions_db -/

/-- Model of `subscribers_db.get_subscriber_by_id`: `find_one({"_id": ...})`. -/
def get_subscriber_by_id (db : Db) (sid : Nat) : Option Subscriber :=
  db.subscribers.find? (fun s => s.id == sid)

/-- Model of `subscriptions_db.get_subscribers_for_list` (subscriptions_db.py lines
107-124): filter the subscriptions collection by list id and optional
status, `skip((page-1)*per_page).limit(per_page)`, project subscriber ids;
also return the total matching count. -/
def get_subscribers_for_list (db : Db) (list_id : Nat) (status_filter : Option String)
    (page per_page : Nat) : List Nat × Nat :=
  let q := db.subscriptions.filter
    (fun s => s.list_id == list_id &&
      (match status_filter with | some st => s.status == st | none => true))
  (((q.drop ((page - 1) * per_page)).take per_page).map (fun s => s.subscriber_id), q.length)

/-! ## tasks.py: campaign sending -/

/-- Constant `tasks.SUBSCRIBER_BATCH_SIZE` (default 500). -/
def SUBSCRIBER_BATCH_SIZE : Nat := 500

/-- The `per_page=10000000` literal passed by
`process_campaign_sending_task` to `get_subscribers_for_list`
("Large per_page for demo"). -/
def RESOLUTION_PER_PAGE : Nat := 10000000

/-- The subscriber ids with a `confirmed` subscription on the list, as
fetched by the resolution loop: `get_subscribers_for_list(list_obj_id,
status_filter="confirmed", per_page=10000000)` — a single page capped at
10000000 rows. -/
def confirmedIdsForList (db : Db) (list_id : Nat) : List Nat :=
  (get_subscribers_for_list db list_id (some "confirmed") 1 RESOLUTION_PER_PAGE).1

/-- Python `set.add`: the recipient set is modelled as a duplicate-free
list in first-insertion order. -/
def addToSet (s : List Nat) (x : Nat) : List Nat :=
  if x ∈ s then s else s ++ [x]

/-- One iteration of the `for list_obj_id in target_list_object_ids` loop of
`process_campaign_sending_task` (tasks.py lines 177-202): fetch subscriber
ids with a `confirmed` subscription on the list (single page of size
10000000), and if any, add to the set the ids of subscribers that are
globally `enabled` (the direct `find({"_id": {"$in": confirmed}, "status":
"enabled"}, {"_id": 1})` over the subscribers collection). -/
def resolveStep (db : Db) (s : List Nat) (list_id : Nat) : List Nat :=
  let confirmed := confirmedIdsForList db list_id
  if confirmed.isEmpty then s
  else
    (db.subscribers.filter (fun sub => confirmed.contains sub.id && sub.status == "enabled")).foldl
      (fun acc sub => addToSet acc sub.id) s

/-- The resolved recipient set `all_subscriber_object_ids_to_send` computed
by `process_campaign_sending_task` (tasks.py lines 169-205). -/
def resolveRecipients (db : Db) (target_list_ids : List Nat) : List Nat :=
  target_list_ids.foldl (resolveStep db) []

/-- Model of `send_email_to_subscriber_batch_task` (tasks.py lines 84-143).
`sendFails sid` models the per-recipient `try` block raising (in production
`send_mail` can raise; the handler counts a failure and continues).  The
simulated send for an enabled, found subscriber is recorded in the outbox.
Mail rendering is pure string substitution with no observable effect on any
modelled field and is not tracked; a missing template only affects the
rendered text (tasks.py lines 94-100).  After the loop the task performs at
most one `$inc` stats write per metric; each such write is rejected by the
server (its built document `$set`s the path `stats.$inc`), raising at that
point. -/
def send_email_to_subscriber_batch_task (db : Db) (cid : Nat) (sub_ids : List Nat)
    (sendFails : Nat → Bool) (now : Int) : Outcome Unit :=
  match get_campaign_by_id db cid with
  | none => .ok db ()
  | some c =>
    let step := fun (acc : Db × Nat × Nat) (sid : Nat) =>
      match get_subscriber_by_id acc.1 sid with
      | none => (acc.1, acc.2.1, acc.2.2 + 1)
      | some sub =>
        if sub.status != "enabled" then (acc.1, acc.2.1, acc.2.2 + 1)
        else if sendFails sid then (acc.1, acc.2.1, acc.2.2 + 1)
        else ({ acc.1 with outbox := acc.1.outbox ++ [(c.uuid, sid)] }, acc.2.1 + 1, acc.2.2)
    let r := sub_ids.foldl step (db, 0, 0)
    let d1 := r.1
    let succ := r.2.1
    let fail := r.2.2
    let o1 : Outcome Unit :=
      if succ > 0 then
        match update_campaign_stats d1 c.uuid [("$inc", .obj [("stats.sent", .int succ)])] now with
        | some d => .ok d ()
        | none => .raised d1
      else .ok d1 ()
    match o1 with
    | .raised d => .raised d
    | .ok d _ =>
      if fail > 0 then
        match update_campaign_stats d c.uuid [("$inc", .obj [("stats.failed", .int fail)])] now with
        | some d2 => .ok d2 ()
        | none => .raised d
      else .ok d ()

/-- The batch start indices `range(0, total, SUBSCRIBER_BATCH_SIZE)` of the
dispatch loop (tasks.py line 217), for a positive step. -/
def batchStartIndices (total step : Nat) : List Nat :=
  (List.range ((total + step - 1) / step)).map (fun k => k * step)

/-- The batch slices `subscriber_ids_list[i:i+SUBSCRIBER_BATCH_SIZE]`
produced by the dispatch loop (tasks.py lines 217-218). -/
def sliceBatches (l : List Nat) (step : Nat) : List (List Nat) :=
  (batchStartIndices l.length step).map (fun i => (l.drop i).take step)

/-- The dispatch loop (tasks.py lines 217-221): each batch is logged in
`dispatched_batches` and the batch task is invoked synchronously (the
`.delay` Celery call is commented out in favour of a direct call); an
exception from a batch aborts the loop. -/
def dispatchBatches (db : Db) (cid : Nat) (batches : List (List Nat))
    (sendFails : Nat → Bool) (now : Int) : Outcome Unit :=
  batches.foldl
    (fun o b =>
      match o with
      | .raised d => .raised d
      | .ok d _ =>
        send_email_to_subscriber_batch_task
          { d with dispatched_batches := d.dispatched_batches ++ [b] } cid b sendFails now)
    (.ok db ())

/-- Model of `process_campaign_sending_task` (tasks.py lines 147-231), translated
line by line.  Note: after dispatching all batches the task only prints
"Monitoring needed for actual completion"; the
`update_campaign_status(..., "finished")` on line 230 is commented out. -/
def process_campaign_sending_task (db : Db) (cid : Nat)
    (sendFails : Nat → Bool) (now : Int) : Outcome Unit :=
  match get_campaign_by_id db cid with
  | none => .ok db ()
  | some c =>
    if c.status != "running" then .ok db ()
    else if c.target_list_ids.isEmpty then
      let db1 := update_campaign_status db c.uuid "finished"
      match update_campaign_stats db1 c.uuid [("$set", .obj [("stats.to_send", .int 0)])] now with
      | some db2 => .ok db2 ()
      | none => .raised db1
    else
      let ids := resolveRecipients db c.target_list_ids
      let total : Int := ids.length
      match update_campaign_stats db c.uuid
        [("$set", .obj [("stats.to_send", .int total), ("stats.sent", .int 0),
          ("stats.failed", .int 0)])] now with
      | none => .raised db
      | some db2 =>
        if ids.length == 0 then .ok (update_campaign_status db2 c.uuid "finished") ()
        else dispatchBatches db2 cid (sliceBatches ids SUBSCRIBER_BATCH_SIZE) sendFails now

/-- Model of `aggregate_tracking_stats_task` (tasks.py lines 278-292): the body is a
docstring, a print and `pass` — the task reads nothing and writes nothing. -/
def aggregate_tracking_stats_task (db : Db) : Db := db

/-! ## tracking_events_db -/

/-- Model of `tracking_events_db.create_view_event`: `insert_one` of a document with
`processed_for_stats_at: None`; Mongo assigns a fresh `_id`. -/
def create_view_event (db : Db) (campaign_uuid subscriber_uuid : String)
    (user_agent ip_address : Option String) (now : Int) : Db × TrackingEvent :=
  let ev : TrackingEvent :=
    ⟨db.next_event_id, "view", campaign_uuid, subscriber_uuid, none, none, now,
      user_agent, ip_address, none⟩
  ({ db with
      tracking_events := db.tracking_events ++ [ev]
      next_event_id := db.next_event_id + 1 }, ev)

/-- Model of `tracking_events_db.create_click_event`: as `create_view_event`, with
link fields and `event_type: "click"`. -/
def create_click_event (db : Db) (campaign_uuid subscriber_uuid link_uuid link_url : String)
    (user_agent ip_address : Option String) (now : Int) : Db × TrackingEvent :=
  let ev : TrackingEvent :=
    ⟨db.next_event_id, "click", campaign_uuid, subscriber_uuid, some link_uuid,
      some link_url, now, user_agent, ip_address, none⟩
  ({ db with
      tracking_events := db.tracking_events ++ [ev]
      next_event_id := db.next_event_id + 1 }, ev)

/-- Match predicate of `get_unprocessed_events_for_campaign`'s query. -/
def unprocessedMatch (campaign_uuid event_type : String) (e : TrackingEvent) : Bool :=
  e.campaign_uuid == campaign_uuid && e.event_type == event_type &&
    e.processed_for_stats_at.isNone

/-- Model of `tracking_events_db.get_unprocessed_events_for_campaign`:
`find({campaign_uuid, event_type, processed_for_stats_at: None}).limit(limit)`
in natural (insertion) order. -/
def get_unprocessed_events_for_campaign (db : Db) (campaign_uuid event_type : String)
    (limit : Nat) : List TrackingEvent :=
  (db.tracking_events.filter (unprocessedMatch campaign_uuid event_type)).take limit

/-- The per-document effect of `mark_events_as_processed`'s `update_many`:
stamp the event if its id is in the list, leave it alone otherwise. -/
def markEvent (event_ids : List Nat) (now : Int) (e : TrackingEvent) : TrackingEvent :=
  if event_ids.contains e.id then { e with processed_for_stats_at := some now } else e

/-- Model of `tracking_events_db.mark_events_as_processed`: early return on an empty
id list, otherwise `update_many({"_id": {"$in": ids}}, {"$set":
{"processed_for_stats_at": now}})`. -/
def mark_events_as_processed (db : Db) (event_ids : List Nat) (now : Int) : Db :=
  if event_ids.isEmpty then db
  else { db with tracking_events := db.tracking_events.map (markEvent event_ids now) }

/-! ## templates_db -/

/-- The `update_many({"template_type": ty, "is_default": True, "uuid":
{"$ne": uuid}}, {"$set": {"is_default": False, ...}})` step shared by
`update_template` and `set_template_as_default`. -/
def unsetOtherDefaults (ts : List Template) (ty uuid : String) : List Template :=
  ts.map (fun t =>
    if t.template_type == ty && t.is_default && t.uuid != uuid then
      { t with is_default := false }
    else t)

/-- The `update_many({"template_type": ty, "is_default": True}, {"$set":
{"is_default": False, ...}})` step of `create_template` (no uuid guard). -/
def unsetDefaultsOfType (ts : List Template) (ty : String) : List Template :=
  ts.map (fun t =>
    if t.template_type == ty && t.is_default then { t with is_default := false } else t)

/-- The `update_one({"uuid": uuid}, {"$set": {"is_default": True, ...}})`
step of `set_template_as_default`: first matching document only. -/
def setDefaultFirst : List Template → String → List Template
  | [], _ => []
  | t :: ts, uuid =>
    if t.uuid == uuid then { t with is_default := true } :: ts
    else t :: setDefaultFirst ts uuid

/-- Model of `templates_db.create_template` (templates_db.py lines 13-40): when
`is_default` is true, first unset every default of the same type, then
insert the new document (with the given fresh id/uuid from `insert_one`
and `uuid.uuid4()`). -/
def create_template (ts : List Template) (tid : Nat) (uuid name ty body : String)
    (is_default : Bool) : List Template :=
  let ts := if is_default then unsetDefaultsOfType ts ty else ts
  ts ++ [⟨tid, uuid, name, ty, body, is_default⟩]

/-- The fields of an `update_template` payload that can affect the default
invariant; content-only fields (name, subject, bodies) cannot. -/
structure TemplateUpdate where
  name : Option String
  template_type : Option String
  body_html : Option String
  is_default : Option Bool
deriving Repr, DecidableEq

/-- Effect of the `$set` of an update payload on one template document. -/
def applyTemplateUpdate (t : Template) (u : TemplateUpdate) : Template :=
  { t with
    name := u.name.getD t.name
    template_type := u.template_type.getD t.template_type
    body_html := u.body_html.getD t.body_html
    is_default := u.is_default.getD t.is_default }

/-- The `update_one({"uuid": uuid}, {"$set": update_data})` step of
`update_template`: first matching document only. -/
def updateTemplateFirst : List Template → String → TemplateUpdate → List Template
  | [], _, _ => []
  | t :: ts, uuid, u =>
    if t.uuid == uuid then applyTemplateUpdate t u :: ts
    else t :: updateTemplateFirst ts uuid u

/-- Model of `templates_db.update_template` (templates_db.py lines 65-87): when the
payload sets `is_default` to `True`, look up the current document's type and
unset other defaults of that type, then apply the `$set`. -/
def update_template (ts : List Template) (uuid : String) (u : TemplateUpdate) :
    List Template :=
  let ts1 :=
    if u.is_default == some true then
      match ts.find? (fun t => t.uuid == uuid) with
      | some cur => unsetOtherDefaults ts cur.template_type uuid
      | none => ts
    else ts
  updateTemplateFirst ts1 uuid u

/-- Model of `templates_db.set_template_as_default` (templates_db.py lines 89-106):
find the template; if present, unset other defaults of its type
(`update_many`), then set it as default (`update_one`) — two separate,
non-transactional writes. -/
def set_template_as_default (ts : List Template) (uuid : String) : List Template × Bool :=
  match ts.find? (fun t => t.uuid == uuid) with
  | none => (ts, false)
  | some cur =>
    let ts1 := unsetOtherDefaults ts cur.template_type uuid
    (setDefaultFirst ts1 uuid, true)

/-- At most one default template per template type: the types of the
default-flagged documents are pairwise distinct. -/
def atMostOneDefaultPerType (ts : List Template) : Prop :=
  ((ts.filter (fun t => t.is_default)).map (fun t => t.template_type)).Nodup

instance (ts : List Template) : Decidable (atMostOneDefaultPerType ts) := by
  unfold atMostOneDefaultPerType
  infer_instance

/-- The predicate "is a default template of type `ty`", used to count
defaults per type. -/
def defaultOfType (ty : String) (t : Template) : Bool :=
  t.template_type == ty && t.is_default

/-! ## Observation helpers and concrete databases -/

/-- The send oracle under which no mailer call fails (matches the
simulation, where the send is a `print`). -/
def noSendFailure : Nat → Bool := fun _ => false

/-- Status of the campaign with the given uuid. -/
def campaignStatus (db : Db) (uuid : String) : Option String :=
  (db.campaigns.find? (fun c => c.uuid == uuid)).map (fun c => c.status)

/-- Stats of the campaign with the given uuid. -/
def campaignStatsOf (db : Db) (uuid : String) : Option Stats :=
  (db.campaigns.find? (fun c => c.uuid == uuid)).map (fun c => c.stats)

/-- A database with no documents at all. -/
def emptyDb : Db := ⟨[], [], [], [], [], 0, [], []⟩

/-- Batch-task input: a campaign, an enabled subscriber 10, a disabled
subscriber 11; subscriber 12 does not exist. -/
def dbC2 : Db :=
  ⟨[⟨1, "c2", "Camp", "running", [], none, Stats.zero⟩],
   [⟨10, "su10", "a@x.io", "A", "enabled"⟩, ⟨11, "su11", "b@x.io", "B", "disabled"⟩],
   [], [], [], 0, [], []⟩

/-- A running campaign targeting list 7, which has exactly one confirmed
subscription, by the globally enabled subscriber 10. -/
def dbC3 : Db :=
  ⟨[⟨1, "c3", "Camp", "running", [7], none, Stats.zero⟩],
   [⟨10, "su10", "a@x.io", "A", "enabled"⟩],
   [⟨10, 7, "confirmed"⟩], [], [], 0, [], []⟩

/-- A campaign with one recorded, unprocessed view event. -/
def dbC4 : Db :=
  ⟨[⟨1, "c4", "Camp", "running", [], none, Stats.zero⟩],
   [], [], [],
   [⟨0, "view", "c4", "su10", none, none, 5, none, none, none⟩], 1, [], []⟩

/-- A running campaign targeting list 7 with one confirmed, enabled
recipient (subscriber 10). -/
def dbC5 : Db :=
  ⟨[⟨1, "c5", "Camp", "running", [7], none, Stats.zero⟩],
   [⟨10, "su10", "a@x.io", "A", "enabled"⟩],
   [⟨10, 7, "confirmed"⟩], [], [], 0, [], []⟩

/-- A running campaign whose `template_id` references template 99, which
does not exist, and whose target list set is empty. -/
def dbC7 : Db :=
  ⟨[⟨1, "c7", "Camp", "running", [], some 99, Stats.zero⟩],
   [], [], [], [], 0, [], []⟩

/-- A running campaign with an empty set of target lists. -/
def dbC8 : Db :=
  ⟨[⟨1, "c8", "Camp", "running", [], none, Stats.zero⟩],
   [], [], [], [], 0, [], []⟩

/-- A running campaign targeting list 7 with three confirmed, enabled
recipients: with batch size 500 the claim expects ceil(3/500) = 1 batch. -/
def dbC9 : Db :=
  ⟨[⟨1, "c9", "Camp", "running", [7], none, Stats.zero⟩],
   [⟨10, "su10", "a@x.io", "A", "enabled"⟩, ⟨11, "su11", "b@x.io", "B", "enabled"⟩,
    ⟨12, "su12", "c@x.io", "C", "enabled"⟩],
   [⟨10, 7, "confirmed"⟩, ⟨11, 7, "confirmed"⟩, ⟨12, 7, "confirmed"⟩],
   [], [], 0, [], []⟩

/-- A block of `RESOLUTION_PER_PAGE + 1` globally enabled subscribers, ids
0 … 10000000. -/
def overflowSubscribers : List Subscriber :=
  (List.range (RESOLUTION_PER_PAGE + 1)).map (fun i => ⟨i, "", "", "", "enabled"⟩)

/-- A confirmed subscription to list 0 for each of the
`RESOLUTION_PER_PAGE + 1` subscribers. -/
def overflowSubscriptions : List Subscription :=
  (List.range (RESOLUTION_PER_PAGE + 1)).map (fun i => ⟨i, 0, "confirmed"⟩)

/-- One more confirmed subscription than the single unpaged resolution
fetch can return: list 0 has `RESOLUTION_PER_PAGE + 1` confirmed
subscriptions by as many globally enabled subscribers. -/
def dbOverflow : Db :=
  ⟨[], overflowSubscribers, overflowSubscriptions, [], [], 0, [], []⟩

/-- The spec's resolution scenario: list 5 has three confirmed
subscribers, of which subscriber 3 is globally blocklisted. -/
def dbC1 : Db :=
  ⟨[],
   [⟨1, "sa", "a@x.io", "A", "enabled"⟩, ⟨2, "sb", "b@x.io", "B", "enabled"⟩,
    ⟨3, "sc", "c@x.io", "C", "blocklisted"⟩],
   [⟨1, 5, "confirmed"⟩, ⟨2, 5, "confirmed"⟩, ⟨3, 5, "confirmed"⟩],
   [], [], 0, [], []⟩

/-- Two non-default templates of the same type, with distinct uuids. -/
def c6ts : List Template :=
  [⟨1, "t1", "one", "campaign", "", false⟩, ⟨2, "t2", "two", "campaign", "", false⟩]

/-- Two templates sharing a uuid (a degenerate collection): the second is
the sole default of type "X". -/
def c6dup : List Template :=
  [⟨1, "u", "a", "X", "", false⟩, ⟨2, "u", "b", "X", "", true⟩]

/-! ## Claim theorems -/

/-- Membership in the recipient set after one `set.add`. -/
theorem mem_addToSet (s : List Nat) (x y : Nat) :
    x ∈ addToSet s y ↔ x ∈ s ∨ x = y := by
  unfold addToSet
  by_cases h : y ∈ s
  · rw [if_pos h]
    constructor
    · exact Or.inl
    · rintro (hx | rfl)
      · exact hx
      · exact h
  · rw [if_neg h]
    simp

/-- Adding to the recipient set keeps it duplicate-free. -/
theorem nodup_addToSet (s : List Nat) (y : Nat) (hs : s.Nodup) :
    (addToSet s y).Nodup := by
  unfold addToSet
  by_cases h : y ∈ s
  · rwa [if_pos h]
  · rw [if_neg h, List.nodup_append]
    refine ⟨hs, List.nodup_singleton y, ?_⟩
    intro a ha hay
    rw [List.mem_singleton] at hay
    exact h (hay ▸ ha)

/-- Membership after folding a block of subscriber documents into the
recipient set. -/
theorem mem_foldl_addToSet (l : List Subscriber) (s : List Nat) (x : Nat) :
    x ∈ l.foldl (fun acc sub => addToSet acc sub.id) s ↔
      x ∈ s ∨ ∃ sub ∈ l, sub.id = x := by
  induction l generalizing s with
  | nil => simp
  | cons sub rest ih =>
    rw [List.foldl_cons, ih, mem_addToSet]
    simp only [List.exists_mem_cons_iff]
    constructor
    · rintro ((hx | hx) | hx)
      · exact Or.inl hx
      · exact Or.inr (Or.inl hx.symm)
      · exact Or.inr (Or.inr hx)
    · rintro (hx | hx | hx)
      · exact Or.inl (Or.inl hx)
      · exact Or.inl (Or.inr hx.symm)
      · exact Or.inr hx

/-- Folding a block of subscriber documents keeps the set duplicate-free. -/
theorem nodup_foldl_addToSet (l : List Subscriber) (s : List Nat) (hs : s.Nodup) :
    (l.foldl (fun acc sub => addToSet acc sub.id) s).Nodup := by
  induction l generalizing s with
  | nil => exact hs
  | cons sub rest ih => exact ih _ (nodup_addToSet s sub.id hs)

/-- Membership after one iteration of the per-list resolution loop. -/
theorem mem_resolveStep (db : Db) (s : List Nat) (lid : Nat) (x : Nat) :
    x ∈ resolveStep db s lid ↔
      x ∈ s ∨ ∃ sub ∈ db.subscribers, sub.id = x ∧ sub.status = "enabled" ∧
        x ∈ confirmedIdsForList db lid := by
  unfold resolveStep
  by_cases h : (confirmedIdsForList db lid).isEmpty
  · rw [if_pos h]
    have hnil : confirmedIdsForList db lid = [] := List.isEmpty_iff.mp h
    simp [hnil]
  · rw [if_neg h, mem_foldl_addToSet]
    apply or_congr Iff.rfl
    constructor
    · rintro ⟨sub, hsub, rfl⟩
      have hf := List.mem_filter.mp hsub
      have hb := hf.2
      rw [Bool.and_eq_true] at hb
      exact ⟨sub, hf.1, rfl, eq_of_beq hb.2, List.elem_iff.mp hb.1⟩
    · rintro ⟨sub, hsub, rfl, hst, hcon⟩
      refine ⟨sub, List.mem_filter.mpr ⟨hsub, ?_⟩, rfl⟩
      rw [Bool.and_eq_true]
      exact ⟨List.elem_iff.mpr hcon, beq_iff_eq.mpr hst⟩

/-- One resolution step keeps the set duplicate-free. -/
theorem nodup_resolveStep (db : Db) (s : List Nat) (lid : Nat) (hs : s.Nodup) :
    (resolveStep db s lid).Nodup := by
  unfold resolveStep
  by_cases h : (confirmedIdsForList db lid).isEmpty
  · rwa [if_pos h]
  · rw [if_neg h]
    exact nodup_foldl_addToSet _ s hs

/-- Membership in the accumulated recipient set over a list of target
lists. -/
theorem mem_resolve_aux (db : Db) (ls : List Nat) (s : List Nat) (x : Nat) :
    x ∈ ls.foldl (resolveStep db) s ↔
      x ∈ s ∨ ∃ lid ∈ ls, ∃ sub ∈ db.subscribers, sub.id = x ∧ sub.status = "enabled" ∧
        x ∈ confirmedIdsForList db lid := by
  induction ls generalizing s with
  | nil => simp
  | cons l rest ih =>
    rw [List.foldl_cons, ih, mem_resolveStep]
    simp only [List.exists_mem_cons_iff]
    constructor
    · rintro ((hx | hx) | ⟨lid, hlid, hx⟩)
      · exact Or.inl hx
      · exact Or.inr (Or.inl hx)
      · exact Or.inr (Or.inr ⟨lid, hlid, hx⟩)
    · rintro (hx | hx | ⟨lid, hlid, hx⟩)
      · exact Or.inl (Or.inl hx)
      · exact Or.inl (Or.inr hx)
      · exact Or.inr ⟨lid, hlid, hx⟩

/-- Under the per-list bound, the capped fetch returns every confirmed
subscription of the list. -/
theorem confirmedIdsForList_eq (db : Db) (lid : Nat)
    (hb : (db.subscriptions.filter
        (fun s => s.list_id == lid && s.status == "confirmed")).length ≤ RESOLUTION_PER_PAGE) :
    confirmedIdsForList db lid =
      (db.subscriptions.filter (fun s => s.list_id == lid && s.status == "confirmed")).map
        (fun s => s.subscriber_id) := by
  unfold confirmedIdsForList get_subscribers_for_list
  simp only [Nat.sub_self, Nat.zero_mul, List.drop_zero]
  rw [List.take_of_length_le hb]

/-- C1 (amended): provided each target list carries at most 10000000
confirmed subscriptions (the resolution fetch is a single page of that
size), the recipient set computed by `process_campaign_sending_task` is
duplicate-free and contains exactly the subscriber ids that have a
`confirmed` subscription on at least one target list and whose subscriber
document is globally `enabled`. -/
theorem c1_amended_resolution (db : Db) (targets : List Nat)
    (hb : ∀ lid ∈ targets, (db.subscriptions.filter
        (fun s => s.list_id == lid && s.status == "confirmed")).length ≤ RESOLUTION_PER_PAGE) :
    (resolveRecipients db targets).Nodup
    ∧ ∀ sid, sid ∈ resolveRecipients db targets ↔
        ((∃ sub ∈ db.subscribers, sub.id = sid ∧ sub.status = "enabled")
          ∧ ∃ lid ∈ targets, ∃ s ∈ db.subscriptions,
              s.list_id = lid ∧ s.subscriber_id = sid ∧ s.status = "confirmed") := by
  constructor
  · unfold resolveRecipients
    have haux : ∀ (ls : List Nat) (s : List Nat), s.Nodup → (ls.foldl (resolveStep db) s).Nodup := by
      intro ls
      induction ls with
      | nil => exact fun s hs => hs
      | cons l rest ih => exact fun s hs => ih _ (nodup_resolveStep db s l hs)
    exact haux targets [] List.nodup_nil
  · intro sid
    rw [resolveRecipients, mem_resolve_aux]
    simp only [List.not_mem_nil, false_or]
    constructor
    · rintro ⟨lid, hl, sub, hsub, rfl, hen, hmem⟩
      rw [confirmedIdsForList_eq db lid (hb lid hl)] at hmem
      obtain ⟨s, hs, hsx⟩ := List.mem_map.mp hmem
      have hsf := List.mem_filter.mp hs
      have hb2 := hsf.2
      rw [Bool.and_eq_true] at hb2
      exact ⟨⟨sub, hsub, rfl, hen⟩, lid, hl, s, hsf.1, eq_of_beq hb2.1, hsx, eq_of_beq hb2.2⟩
    · rintro ⟨⟨sub, hsub, hid, hen⟩, lid, hl, s, hs, hsl, hssid, hsst⟩
      refine ⟨lid, hl, sub, hsub, hid, hen, ?_⟩
      rw [confirmedIdsForList_eq db lid (hb lid hl)]
      refine List.mem_map.mpr ⟨s, List.mem_filter.mpr ⟨hs, ?_⟩, by rw [hssid]⟩
      rw [Bool.and_eq_true]
      exact ⟨beq_iff_eq.mpr hsl, beq_iff_eq.mpr hsst⟩

/-- Witness for `c1_amended_resolution` on the spec's scenario database:
the resolved set is duplicate-free, contains the enabled confirmed
subscriber 1 and excludes the blocklisted confirmed subscriber 3. -/
theorem c1_amended_witness :
    (resolveRecipients dbC1 [5]).Nodup
    ∧ (1 ∈ resolveRecipients dbC1 [5] ↔
        ((∃ sub ∈ dbC1.subscribers, sub.id = 1 ∧ sub.status = "enabled")
          ∧ ∃ lid ∈ [5], ∃ s ∈ dbC1.subscriptions,
              s.list_id = lid ∧ s.subscriber_id = 1 ∧ s.status = "confirmed"))
    ∧ (3 ∈ resolveRecipients dbC1 [5] ↔
        ((∃ sub ∈ dbC1.subscribers, sub.id = 3 ∧ sub.status = "enabled")
          ∧ ∃ lid ∈ [5], ∃ s ∈ dbC1.subscriptions,
              s.list_id = lid ∧ s.subscriber_id = 3 ∧ s.status = "confirmed")) := by
  have h := c1_amended_resolution dbC1 [5] (by
    intro lid hl
    simp only [List.mem_singleton] at hl
    subst hl
    decide)
  exact ⟨h.1, h.2 1, h.2 3⟩

/-- The capped fetch on the overflowing list returns only the first
10000000 subscriber ids. -/
theorem confirmedIds_overflow :
    confirmedIdsForList dbOverflow 0 = List.range RESOLUTION_PER_PAGE := by
  unfold confirmedIdsForList get_subscribers_for_list
  simp only [dbOverflow]
  unfold overflowSubscriptions
  simp only [Nat.sub_self, Nat.zero_mul, List.drop_zero]
  rw [List.filter_eq_self.mpr (by
    intro a ha
    obtain ⟨i, _, rfl⟩ := List.mem_map.mp ha
    rfl)]
  rw [← List.map_take, List.take_range, Nat.min_eq_left (Nat.le_succ _), List.map_map]
  exact (List.map_congr_left fun i _ => rfl).trans (List.map_id _)

/-- C1 counterexample: on a list with 10000001 confirmed, globally enabled
subscribers, subscriber 10000000 is confirmed on the (sole) target list and
enabled, yet absent from the computed recipient set — the single fetch with
`per_page=10000000` truncates the list, so the computed set does not equal
the set the claim describes. -/
theorem c1_counterexample_truncated_resolution :
    (∃ s ∈ dbOverflow.subscriptions, s.list_id = 0
        ∧ s.subscriber_id = RESOLUTION_PER_PAGE ∧ s.status = "confirmed")
    ∧ (∃ sub ∈ dbOverflow.subscribers, sub.id = RESOLUTION_PER_PAGE
        ∧ sub.status = "enabled")
    ∧ RESOLUTION_PER_PAGE ∉ resolveRecipients dbOverflow [0] := by
  refine ⟨⟨⟨RESOLUTION_PER_PAGE, 0, "confirmed"⟩, ?_, rfl, rfl, rfl⟩,
    ⟨⟨RESOLUTION_PER_PAGE, "", "", "", "enabled"⟩, ?_, rfl, rfl⟩, ?_⟩
  · show _ ∈ dbOverflow.subscriptions
    simp only [dbOverflow]
    unfold overflowSubscriptions
    exact List.mem_map.mpr ⟨RESOLUTION_PER_PAGE,
      List.mem_range.mpr (Nat.lt_succ_self _), rfl⟩
  · show _ ∈ dbOverflow.subscribers
    simp only [dbOverflow]
    unfold overflowSubscribers
    exact List.mem_map.mpr ⟨RESOLUTION_PER_PAGE,
      List.mem_range.mpr (Nat.lt_succ_self _), rfl⟩
  · intro hmem
    have hstep : resolveRecipients dbOverflow [0] = resolveStep dbOverflow [] 0 := by
      unfold resolveRecipients
      rw [List.foldl_cons, List.foldl_nil]
    rw [hstep] at hmem
    have h := (mem_resolveStep dbOverflow [] 0 RESOLUTION_PER_PAGE).mp hmem
    rcases h with h | ⟨sub, _, _, _, hmemc⟩
    · exact absurd h (List.not_mem_nil _)
    · rw [confirmedIds_overflow] at hmemc
      exact absurd (List.mem_range.mp hmemc) (lt_irrefl _)

/-- C2: the batch task does skip a disabled subscriber (11) and a missing
subscriber (12) as failures and continues past them (the enabled
subscriber 10, listed after the disabled one, is still sent to — see the
outbox), but the claimed stats increments never happen: the update document
`update_campaign_stats` builds from `{"$inc": {"stats.sent": n}}` is
`{"$set": {"stats.$inc": {...}, "updated_at": ...}}` — no `$inc` operator
at all, only a `$set` of the `$`-prefixed path `stats.$inc`, which the
server rejects — so the task raises and the campaign's stats are left
untouched instead of being incremented by the batch's success and failure
counts. -/
theorem c2_batch_stats_increments_never_applied :
    buildStatsUpdateDoc [("$inc", .obj [("stats.sent", .int 1)])] 0 =
      some [("$set", .obj [("stats.$inc", .obj [("stats.sent", .int 1)]),
        ("updated_at", .int 0)])]
    ∧ (send_email_to_subscriber_batch_task dbC2 1 [11, 10, 12] noSendFailure 0).isRaised = true
    ∧ (send_email_to_subscriber_batch_task dbC2 1 [11, 10, 12] noSendFailure 0).db.outbox
        = [("c2", 10)]
    ∧ campaignStatsOf (send_email_to_subscriber_batch_task dbC2 1 [11, 10, 12]
        noSendFailure 0).db "c2" = some Stats.zero :=
  ⟨rfl, by decide, by decide, by decide⟩

/-- C3: on a running campaign with one confirmed, enabled recipient the
send attempt should end with `to_send = 1` and `sent + failed = 1`; instead
the initial `{"$set": {"stats.to_send": ..., ...}}` write is mangled into a
`$set` of the rejected path `stats.$set`, the invocation raises before
`to_send` is ever written and before any batch is dispatched, and the stats
stay identically zero. -/
theorem c3_to_send_never_set_attempt_aborts :
    (resolveRecipients dbC3 [7]).length = 1
    ∧ (process_campaign_sending_task dbC3 1 noSendFailure 0).isRaised = true
    ∧ campaignStatsOf (process_campaign_sending_task dbC3 1 noSendFailure 0).db "c3"
        = some Stats.zero
    ∧ (process_campaign_sending_task dbC3 1 noSendFailure 0).db.dispatched_batches = [] := by
  refine ⟨by decide, by decide, by decide, by decide⟩

/-- C4: the campaign has one unprocessed view event, yet running the
aggregator changes nothing — the task body is a stub (`pass`), so
`stats.views` is not incremented and the event is not marked processed,
contrary to the claim (and to the task's own docstring). -/
theorem c4_aggregator_is_a_noop_stub :
    aggregate_tracking_stats_task dbC4 = dbC4
    ∧ (get_unprocessed_events_for_campaign dbC4 "c4" "view" 1000).length = 1
    ∧ campaignStatsOf dbC4 "c4" = some Stats.zero
    ∧ campaignStatsOf (aggregate_tracking_stats_task dbC4) "c4" = some Stats.zero
    ∧ get_unprocessed_events_for_campaign (aggregate_tracking_stats_task dbC4) "c4" "view" 1000
        = get_unprocessed_events_for_campaign dbC4 "c4" "view" 1000 :=
  ⟨rfl, by decide, by decide, by decide, rfl⟩

/-- C5: on a running campaign with a non-empty resolved recipient set the
campaign is never transitioned to `finished`: the invocation raises at the
initial stats write, before any batch is dispatched, leaving the campaign
in `running` (and even without that failure, the orchestrator's
`update_campaign_status(..., "finished")` after dispatch is commented out
in the source, which only prints "Monitoring needed for actual
completion"). -/
theorem c5_campaign_left_running :
    (resolveRecipients dbC5 [7]).length = 1
    ∧ (process_campaign_sending_task dbC5 1 noSendFailure 0).isRaised = true
    ∧ campaignStatus (process_campaign_sending_task dbC5 1 noSendFailure 0).db "c5"
        = some "running"
    ∧ (process_campaign_sending_task dbC5 1 noSendFailure 0).db.dispatched_batches = [] := by
  refine ⟨by decide, by decide, by decide, by decide⟩

/-- C6 counterexample: the claim's "at most one default per type at all
times, including under concurrent set-default calls" is false.  (1) Two
concurrent `set_template_as_default` calls for "t1" and "t2" (same type)
each perform find, then `update_many` (unset others), then `update_one`
(set self) as separate writes; the interleaving unset-t1, unset-t2,
set-t1, set-t2 ends with both templates default.  (2) Even a single,
uninterleaved `set_template_as_default` violates the invariant when two
templates share a uuid, because the unset step excludes every document
carrying the target uuid. -/
theorem c6_counterexample_two_defaults :
    atMostOneDefaultPerType c6ts
    ∧ ¬ atMostOneDefaultPerType
        (setDefaultFirst (setDefaultFirst
          (unsetOtherDefaults (unsetOtherDefaults c6ts "campaign" "t1") "campaign" "t2")
          "t1") "t2")
    ∧ atMostOneDefaultPerType c6dup
    ∧ ¬ atMostOneDefaultPerType (set_template_as_default c6dup "u").1 := by
  refine ⟨by decide, by decide, by decide, by decide⟩

/-- The invariant restated as a per-type bound: every type has at most one
default-flagged document. -/
theorem atMostOne_iff_countP (ts : List Template) :
    atMostOneDefaultPerType ts ↔ ∀ ty, ts.countP (defaultOfType ty) ≤ 1 := by
  unfold atMostOneDefaultPerType
  rw [List.nodup_iff_count_le_one]
  refine forall_congr' (fun ty => ?_)
  rw [List.count_eq_countP, List.countP_map, List.countP_filter]
  exact Iff.rfl

/-- The unset pass changes no uuid. -/
theorem unsetOtherDefaults_uuids (ts : List Template) (ty u : String) :
    (unsetOtherDefaults ts ty u).map (fun t => t.uuid) = ts.map (fun t => t.uuid) := by
  unfold unsetOtherDefaults
  rw [List.map_map]
  refine List.map_congr_left (fun t ht => ?_)
  simp only [Function.comp]
  split <;> rfl

/-- With pairwise distinct uuids, at most one document carries a given
uuid. -/
theorem countP_uuid_le_one (ts : List Template) (u : String)
    (hnd : (ts.map (fun t => t.uuid)).Nodup) :
    ts.countP (fun t => t.uuid == u) ≤ 1 := by
  have h1 : ts.countP (fun t => t.uuid == u) = List.count u (ts.map (fun t => t.uuid)) := by
    rw [List.count_eq_countP, List.countP_map]
    rfl
  rw [h1]
  exact List.nodup_iff_count_le_one.mp hnd u

/-- With pairwise distinct uuids, setting the first uuid match as default
is the same as mapping the conditional update over the collection. -/
theorem setDefaultFirst_eq_map (ts : List Template) (u : String)
    (hnd : (ts.map (fun t => t.uuid)).Nodup) :
    setDefaultFirst ts u =
      ts.map (fun t => if t.uuid == u then { t with is_default := true } else t) := by
  induction ts with
  | nil => rfl
  | cons t rest ih =>
    rw [List.map_cons, List.nodup_cons] at hnd
    by_cases h : t.uuid = u
    · have hmap : rest.map
          (fun s => if s.uuid = u then { s with is_default := true } else s) = rest := by
        conv_rhs => rw [← List.map_id rest]
        refine List.map_congr_left (fun s hs => ?_)
        have hne : ¬ s.uuid = u := fun he => hnd.1 (by
          rw [h, ← he]
          exact List.mem_map_of_mem (fun t => t.uuid) hs)
        simp [hne]
      simp only [setDefaultFirst, List.map_cons, h, beq_self_eq_true, if_true]
      simp only [beq_iff_eq]
      rw [hmap]
    · simp [setDefaultFirst, h, ih hnd.2]

/-- With pairwise distinct uuids, updating the first uuid match is the same
as mapping the conditional update over the collection. -/
theorem updateTemplateFirst_eq_map (ts : List Template) (u : String) (upd : TemplateUpdate)
    (hnd : (ts.map (fun t => t.uuid)).Nodup) :
    updateTemplateFirst ts u upd =
      ts.map (fun t => if t.uuid == u then applyTemplateUpdate t upd else t) := by
  induction ts with
  | nil => rfl
  | cons t rest ih =>
    rw [List.map_cons, List.nodup_cons] at hnd
    by_cases h : t.uuid = u
    · have hmap : rest.map
          (fun s => if s.uuid = u then applyTemplateUpdate s upd else s) = rest := by
        conv_rhs => rw [← List.map_id rest]
        refine List.map_congr_left (fun s hs => ?_)
        have hne : ¬ s.uuid = u := fun he => hnd.1 (by
          rw [h, ← he]
          exact List.mem_map_of_mem (fun t => t.uuid) hs)
        simp [hne]
      simp only [updateTemplateFirst, List.map_cons, h, beq_self_eq_true, if_true]
      simp only [beq_iff_eq]
      rw [hmap]
    · simp [updateTemplateFirst, h, ih hnd.2]

/-- Insertion via `create_template` preserves the at-most-one-default invariant: when
inserting a default it first unsets every default of the same type. -/
theorem create_template_preserves (ts : List Template) (tid : Nat)
    (uuid name ty body : String) (dflt : Bool)
    (hinv : atMostOneDefaultPerType ts) :
    atMostOneDefaultPerType (create_template ts tid uuid name ty body dflt) := by
  rw [atMostOne_iff_countP] at hinv ⊢
  intro ty2
  unfold create_template
  by_cases hd : dflt = true
  · subst hd
    rw [if_pos rfl, List.countP_append]
    by_cases hty : ty = ty2
    · subst hty
      have h0 : List.countP (defaultOfType ty) (unsetDefaultsOfType ts ty) = 0 := by
        rw [List.countP_eq_zero]
        intro t ht
        unfold unsetDefaultsOfType at ht
        obtain ⟨t0, _ht0, rfl⟩ := List.mem_map.mp ht
        by_cases hc : (t0.template_type == ty && t0.is_default) = true
        · simp [hc, defaultOfType]
        · rw [if_neg hc]
          exact hc
      have h1 : List.countP (defaultOfType ty) [⟨tid, uuid, name, ty, body, true⟩] = 1 := by
        simp [defaultOfType]
      omega
    · have h0 : List.countP (defaultOfType ty2) (unsetDefaultsOfType ts ty) ≤
          List.countP (defaultOfType ty2) ts := by
        unfold unsetDefaultsOfType
        rw [List.countP_map]
        refine List.countP_mono_left (fun t ht hp => ?_)
        simp only [Function.comp_apply] at hp
        by_cases hc : (t.template_type == ty && t.is_default) = true
        · rw [if_pos hc] at hp
          simp [defaultOfType] at hp
        · rwa [if_neg hc] at hp
      have h1 : List.countP (defaultOfType ty2) [⟨tid, uuid, name, ty, body, true⟩] = 0 := by
        simp [defaultOfType, hty]
      have h2 := hinv ty2
      omega
  · have hd' : dflt = false := by cases dflt <;> simp_all
    subst hd'
    rw [if_neg (by simp), List.countP_append]
    have h1 : List.countP (defaultOfType ty2) [⟨tid, uuid, name, ty, body, false⟩] = 0 := by
      simp [defaultOfType]
    have h2 := hinv ty2
    omega

/-- Running `set_template_as_default` to completion without interleaving
preserves the invariant (assuming pairwise distinct uuids). -/
theorem set_default_preserves (ts : List Template) (u : String)
    (hnd : (ts.map (fun t => t.uuid)).Nodup)
    (hinv : atMostOneDefaultPerType ts) :
    atMostOneDefaultPerType (set_template_as_default ts u).1 := by
  unfold set_template_as_default
  cases hfind : ts.find? (fun t => t.uuid == u) with
  | none => exact hinv
  | some cur =>
    have hcurb := List.find?_some hfind
    have hcuru : cur.uuid = u := eq_of_beq hcurb
    have hmem := List.mem_of_find?_eq_some hfind
    have hnd1 : ((unsetOtherDefaults ts cur.template_type u).map (fun t => t.uuid)).Nodup := by
      rw [unsetOtherDefaults_uuids]
      exact hnd
    dsimp only
    rw [setDefaultFirst_eq_map _ u hnd1]
    unfold unsetOtherDefaults
    rw [List.map_map, atMostOne_iff_countP]
    intro ty2
    rw [List.countP_map]
    by_cases hty : ty2 = cur.template_type
    · refine le_trans (List.countP_mono_left (fun t ht hp => ?_)) (countP_uuid_le_one ts u hnd)
      by_cases huu : t.uuid = u
      · simp [huu]
      · exfalso
        simp only [Function.comp_apply] at hp
        by_cases hc : (t.template_type == cur.template_type && t.is_default && t.uuid != u) = true
        · simp [hc, huu, defaultOfType] at hp
        · simp [hc, huu, defaultOfType] at hp
          exact hc (by simp [hp.1, hp.2, bne_iff_ne, huu, hty])
    · refine le_trans (List.countP_mono_left (fun t ht hp => ?_))
        ((atMostOne_iff_countP ts).mp hinv ty2)
      simp only [Function.comp_apply] at hp
      by_cases huu : t.uuid = u
      · exfalso
        have hteq : t = cur := List.inj_on_of_nodup_map hnd ht hmem (by rw [huu, hcuru])
        simp [huu, defaultOfType] at hp
        exact hty (by rw [← hp, hteq])
      · by_cases hc : (t.template_type == cur.template_type && t.is_default && t.uuid != u) = true
        · exfalso
          simp [hc, huu, defaultOfType] at hp
        · simp [hc, huu] at hp
          exact hp

/-- Running `update_template` with a payload that does not change the template
type, run to completion without interleaving, preserves the invariant
(assuming pairwise distinct uuids). -/
theorem update_template_preserves (ts : List Template) (u : String) (upd : TemplateUpdate)
    (hnd : (ts.map (fun t => t.uuid)).Nodup)
    (hinv : atMostOneDefaultPerType ts)
    (htyn : upd.template_type = none) :
    atMostOneDefaultPerType (update_template ts u upd) := by
  unfold update_template
  by_cases hdef : upd.is_default = some true
  · rw [if_pos (by simp [hdef])]
    cases hfind : ts.find? (fun t => t.uuid == u) with
    | none =>
      rw [updateTemplateFirst_eq_map _ _ _ hnd]
      have hmap : ts.map (fun t => if t.uuid == u then applyTemplateUpdate t upd else t)
          = ts := by
        conv_rhs => rw [← List.map_id ts]
        refine List.map_congr_left (fun t ht => ?_)
        have hne := List.find?_eq_none.mp hfind t ht
        simp at hne
        simp [hne]
      rw [hmap]
      exact hinv
    | some cur =>
      have hcurb := List.find?_some hfind
      have hcuru : cur.uuid = u := eq_of_beq hcurb
      have hmem := List.mem_of_find?_eq_some hfind
      have hnd1 : ((unsetOtherDefaults ts cur.template_type u).map (fun t => t.uuid)).Nodup := by
        rw [unsetOtherDefaults_uuids]
        exact hnd
      rw [updateTemplateFirst_eq_map _ _ _ hnd1]
      unfold unsetOtherDefaults
      rw [List.map_map, atMostOne_iff_countP]
      intro ty2
      rw [List.countP_map]
      by_cases hty : ty2 = cur.template_type
      · refine le_trans (List.countP_mono_left (fun t ht hp => ?_)) (countP_uuid_le_one ts u hnd)
        by_cases huu : t.uuid = u
        · simp [huu]
        · exfalso
          simp only [Function.comp_apply] at hp
          by_cases hc : (t.template_type == cur.template_type && t.is_default && t.uuid != u)
              = true
          · simp [hc, huu, defaultOfType] at hp
          · simp [hc, huu, defaultOfType] at hp
            exact hc (by simp [hp.1, hp.2, bne_iff_ne, huu, hty])
      · refine le_trans (List.countP_mono_left (fun t ht hp => ?_))
          ((atMostOne_iff_countP ts).mp hinv ty2)
        simp only [Function.comp_apply] at hp
        by_cases huu : t.uuid = u
        · exfalso
          have hteq : t = cur := List.inj_on_of_nodup_map hnd ht hmem (by rw [huu, hcuru])
          simp [huu, applyTemplateUpdate, htyn, hdef, defaultOfType] at hp
          exact hty (by rw [← hp, hteq])
        · by_cases hc : (t.template_type == cur.template_type && t.is_default && t.uuid != u)
              = true
          · exfalso
            simp [hc, huu, defaultOfType] at hp
          · simp [hc, huu] at hp
            exact hp
  · rw [if_neg (by simp [hdef])]
    rw [updateTemplateFirst_eq_map _ _ _ hnd, atMostOne_iff_countP]
    intro ty2
    rw [List.countP_map]
    refine le_trans (List.countP_mono_left (fun t ht hp => ?_))
      ((atMostOne_iff_countP ts).mp hinv ty2)
    simp only [Function.comp_apply] at hp
    by_cases huu : t.uuid = u
    · cases hd2 : upd.is_default with
      | none =>
        simp [huu, applyTemplateUpdate, htyn, hd2] at hp
        exact hp
      | some b =>
        cases b with
        | true => exact absurd hd2 hdef
        | false =>
          exfalso
          simp [huu, applyTemplateUpdate, htyn, hd2, defaultOfType] at hp
    · simp [huu] at hp
      exact hp

/-- C6 (amended): provided template uuids are pairwise distinct (they are
generated by `uuid.uuid4()` at insertion), each of `create_template`,
`update_template` setting `is_default` (with a payload that does not also
change `template_type`), and `set_template_as_default`, run to completion
without interleaving, preserves "at most one default per template type".
The unamended claim's atomicity under concurrent set-default calls (and its
robustness to duplicate uuids) is refuted by
`c6_counterexample_two_defaults`. -/
theorem c6_amended_each_op_preserves_invariant (ts : List Template)
    (hnd : (ts.map (fun t => t.uuid)).Nodup)
    (hinv : atMostOneDefaultPerType ts) :
    (∀ tid uuid name ty body dflt,
        atMostOneDefaultPerType (create_template ts tid uuid name ty body dflt))
    ∧ (∀ uuid upd, upd.template_type = none →
        atMostOneDefaultPerType (update_template ts uuid upd))
    ∧ (∀ uuid, atMostOneDefaultPerType (set_template_as_default ts uuid).1) :=
  ⟨fun tid uuid name ty body dflt => create_template_preserves ts tid uuid name ty body dflt hinv,
   fun uuid upd h => update_template_preserves ts uuid upd hnd hinv h,
   fun uuid => set_default_preserves ts uuid hnd hinv⟩

/-- Witness for `c6_amended_each_op_preserves_invariant` on the concrete
two-template collection: inserting a third default, updating "t1" to
default, and setting "t1" as default each leave at most one default per
type. -/
theorem c6_amended_witness :
    atMostOneDefaultPerType (create_template c6ts 3 "t3" "three" "campaign" "" true)
    ∧ atMostOneDefaultPerType (update_template c6ts "t1" ⟨none, none, none, some true⟩)
    ∧ atMostOneDefaultPerType (set_template_as_default c6ts "t1").1 := by
  have h := c6_amended_each_op_preserves_invariant c6ts (by decide) (by decide)
  exact ⟨h.1 3 "t3" "three" "campaign" "" true,
    h.2.1 "t1" ⟨none, none, none, some true⟩ rfl, h.2.2 "t1"⟩

/-- C7 counterexample: the campaign exists, is `running`, and references
template 99 which does not exist, so by the claim the invocation must abort
with the campaign's status unchanged; but the template is never checked at
orchestration start, and with an empty target-list set the campaign is
marked `finished` before the invocation aborts at the stats write. -/
theorem c7_counterexample_missing_template_marked_finished :
    campaignStatus dbC7 "c7" = some "running"
    ∧ (get_campaign_by_id dbC7 1).map (fun c => c.template_id) = some (some 99)
    ∧ get_template_by_id dbC7 99 = none
    ∧ campaignStatus (process_campaign_sending_task dbC7 1 noSendFailure 0).db "c7"
        = some "finished" := by
  refine ⟨by decide, by decide, by decide, by decide⟩

/-- C7 (amended): a missing campaign at orchestration start really is
fatal and harmless — the invocation returns with the database exactly as it
was: nothing is sent, no status or stats change. -/
theorem c7_missing_campaign_aborts_unchanged (db : Db) (cid : Nat)
    (sendFails : Nat → Bool) (now : Int)
    (h : get_campaign_by_id db cid = none) :
    process_campaign_sending_task db cid sendFails now = .ok db () := by
  unfold process_campaign_sending_task
  rw [h]

/-- Witness for `c7_missing_campaign_aborts_unchanged` at the empty
database and campaign id 1. -/
theorem c7_missing_campaign_witness :
    get_campaign_by_id emptyDb 1 = none
    ∧ process_campaign_sending_task emptyDb 1 noSendFailure 0 = .ok emptyDb () :=
  ⟨by decide, c7_missing_campaign_aborts_unchanged emptyDb 1 noSendFailure 0 (by decide)⟩

/-- C8: a running campaign with an empty target-list set is marked
`finished` and nothing is sent, but contrary to the claim the invocation is
an error and `stats.to_send` is never written: the
`{"$set": {"stats.to_send": 0}}` update is mangled into a `$set` of the
rejected path `stats.$set` and the task raises right after the status
transition (`to_send` remains at its initial value only because
`create_campaign` zero-initialises stats). -/
theorem c8_empty_targets_raises_after_finish :
    (process_campaign_sending_task dbC8 1 noSendFailure 0).isRaised = true
    ∧ campaignStatus (process_campaign_sending_task dbC8 1 noSendFailure 0).db "c8"
        = some "finished"
    ∧ campaignStatsOf (process_campaign_sending_task dbC8 1 noSendFailure 0).db "c8"
        = some Stats.zero
    ∧ (process_campaign_sending_task dbC8 1 noSendFailure 0).db.outbox = [] := by
  refine ⟨by decide, by decide, by decide, by decide⟩

/-- Marking never changes an event's id. -/
theorem markEvent_id (ids : List Nat) (now : Int) (e : TrackingEvent) :
    (markEvent ids now e).id = e.id := by
  unfold markEvent
  split <;> rfl

/-- An event that still matches the unprocessed query after marking already
matched it before marking (marking only sets the processed stamp). -/
theorem unprocessedMatch_of_markEvent (cu ty : String) (ids : List Nat) (now : Int)
    (e : TrackingEvent) (h : unprocessedMatch cu ty (markEvent ids now e) = true) :
    unprocessedMatch cu ty e = true := by
  unfold markEvent at h
  split at h
  · simp [unprocessedMatch] at h
  · exact h

/-- A matching event appended to a collection whose matching portion is
shorter than the fetch limit is among the first `limit` matches. -/
theorem mem_filter_take_append (l : List TrackingEvent) (ev : TrackingEvent)
    (p : TrackingEvent → Bool) (limit : Nat)
    (hm : p ev = true) (hlen : (l.filter p).length < limit) :
    ev ∈ ((l ++ [ev]).filter p).take limit := by
  rw [List.filter_append]
  have h1 : List.filter p [ev] = [ev] := by simp [hm]
  rw [h1, List.take_of_length_le (by simp; omega)]
  exact List.mem_append_right _ (List.mem_singleton_self ev)

/-- After an event with a fresh id is appended and then marked, no event
returned by the unprocessed query carries that id. -/
theorem marked_filter_id_ne (l : List TrackingEvent) (ev : TrackingEvent)
    (ids : List Nat) (now2 : Int) (cu ty : String) (lim2 : Nat)
    (hfresh : ∀ e ∈ l, e.id ≠ ev.id) (hin : ev.id ∈ ids) :
    ∀ e ∈ (((l ++ [ev]).map (markEvent ids now2)).filter (unprocessedMatch cu ty)).take lim2,
      e.id ≠ ev.id := by
  intro e he
  have he1 := List.mem_of_mem_take he
  have he2 := List.mem_filter.mp he1
  obtain ⟨e0, he0, rfl⟩ := List.mem_map.mp he2.1
  rw [markEvent_id]
  rcases List.mem_append.mp he0 with h0 | h0
  · exact hfresh e0 h0
  · exfalso
    have hev : e0 = ev := List.mem_singleton.mp h0
    subst hev
    have h2 := he2.2
    simp [markEvent, unprocessedMatch, hin] at h2

/-- A matching appended event whose id is not among the marked ids is still
returned by the unprocessed query after the marking pass (marking other
events can only shrink the set of earlier matches). -/
theorem unmarked_still_returned (l : List TrackingEvent) (ev : TrackingEvent)
    (ids : List Nat) (now2 : Int) (cu ty : String) (limit : Nat)
    (hm : unprocessedMatch cu ty ev = true)
    (hnc : ev.id ∉ ids)
    (hlen : (l.filter (unprocessedMatch cu ty)).length < limit) :
    ev ∈ (((l ++ [ev]).map (markEvent ids now2)).filter (unprocessedMatch cu ty)).take limit := by
  rw [List.map_append, List.map_singleton]
  have hfix : markEvent ids now2 ev = ev := by simp [markEvent, hnc]
  rw [hfix]
  apply mem_filter_take_append _ _ _ limit hm
  have hle : ((l.map (markEvent ids now2)).filter (unprocessedMatch cu ty)).length ≤
      (l.filter (unprocessedMatch cu ty)).length := by
    rw [← List.countP_eq_length_filter, ← List.countP_eq_length_filter, List.countP_map]
    exact List.countP_mono_left
      (fun e _ h => unprocessedMatch_of_markEvent cu ty ids now2 e h)
  omega

/-- C10: a tracking event inserted by `create_view_event` or
`create_click_event` carries `processed_for_stats_at = None`; as long as it
is not marked it is returned by `get_unprocessed_events_for_campaign` for
its campaign and event type whenever the previously matching events do not
already fill the fetch limit; once `mark_events_as_processed` is called
with its id it is never returned again; and marking other ids leaves it
returned.  The freshness hypothesis models Mongo's fresh `_id` generation
on insert. -/
theorem c10_event_unprocessed_until_marked (db : Db) (cu su lu lurl : String)
    (ua ip : Option String) (now now2 : Int) (limit : Nat) (ids : List Nat)
    (hfresh : ∀ e ∈ db.tracking_events, e.id ≠ db.next_event_id) :
    ((create_view_event db cu su ua ip now).2.processed_for_stats_at = none
      ∧ (create_click_event db cu su lu lurl ua ip now).2.processed_for_stats_at = none)
    ∧ ((db.tracking_events.filter (unprocessedMatch cu "view")).length < limit →
        (create_view_event db cu su ua ip now).2 ∈
          get_unprocessed_events_for_campaign (create_view_event db cu su ua ip now).1
            cu "view" limit)
    ∧ ((db.tracking_events.filter (unprocessedMatch cu "click")).length < limit →
        (create_click_event db cu su lu lurl ua ip now).2 ∈
          get_unprocessed_events_for_campaign (create_click_event db cu su lu lurl ua ip now).1
            cu "click" limit)
    ∧ (db.next_event_id ∈ ids →
        ∀ ty lim2,
          ∀ e ∈ get_unprocessed_events_for_campaign
              (mark_events_as_processed (create_view_event db cu su ua ip now).1 ids now2)
              cu ty lim2,
            e.id ≠ db.next_event_id)
    ∧ (db.next_event_id ∉ ids →
        (db.tracking_events.filter (unprocessedMatch cu "view")).length < limit →
        (create_view_event db cu su ua ip now).2 ∈
          get_unprocessed_events_for_campaign
            (mark_events_as_processed (create_view_event db cu su ua ip now).1 ids now2)
            cu "view" limit)
    ∧ (db.next_event_id ∈ ids →
        ∀ ty lim2,
          ∀ e ∈ get_unprocessed_events_for_campaign
              (mark_events_as_processed (create_click_event db cu su lu lurl ua ip now).1
                ids now2)
              cu ty lim2,
            e.id ≠ db.next_event_id)
    ∧ (db.next_event_id ∉ ids →
        (db.tracking_events.filter (unprocessedMatch cu "click")).length < limit →
        (create_click_event db cu su lu lurl ua ip now).2 ∈
          get_unprocessed_events_for_campaign
            (mark_events_as_processed (create_click_event db cu su lu lurl ua ip now).1
              ids now2)
            cu "click" limit) := by
  refine ⟨⟨rfl, rfl⟩, ?_, ?_, ?_, ?_, ?_, ?_⟩
  · intro hlen
    exact mem_filter_take_append db.tracking_events _ _ limit
      (by simp [unprocessedMatch, create_view_event]) hlen
  · intro hlen
    exact mem_filter_take_append db.tracking_events _ _ limit
      (by simp [unprocessedMatch, create_click_event]) hlen
  · intro hin ty lim2
    unfold mark_events_as_processed
    split
    · rename_i hemp
      rw [List.isEmpty_iff.mp hemp] at hin
      exact absurd hin (List.not_mem_nil _)
    · exact marked_filter_id_ne db.tracking_events (create_view_event db cu su ua ip now).2
        ids now2 cu ty lim2 hfresh hin
  · intro hnin hlen
    unfold mark_events_as_processed
    split
    · exact mem_filter_take_append db.tracking_events _ _ limit
        (by simp [unprocessedMatch, create_view_event]) hlen
    · exact unmarked_still_returned db.tracking_events (create_view_event db cu su ua ip now).2
        ids now2 cu "view" limit (by simp [unprocessedMatch, create_view_event]) hnin hlen
  · intro hin ty lim2
    unfold mark_events_as_processed
    split
    · rename_i hemp
      rw [List.isEmpty_iff.mp hemp] at hin
      exact absurd hin (List.not_mem_nil _)
    · exact marked_filter_id_ne db.tracking_events
        (create_click_event db cu su lu lurl ua ip now).2 ids now2 cu ty lim2 hfresh hin
  · intro hnin hlen
    unfold mark_events_as_processed
    split
    · exact mem_filter_take_append db.tracking_events _ _ limit
        (by simp [unprocessedMatch, create_click_event]) hlen
    · exact unmarked_still_returned db.tracking_events
        (create_click_event db cu su lu lurl ua ip now).2 ids now2 cu "click" limit
        (by simp [unprocessedMatch, create_click_event]) hnin hlen

/-- Witness for `c10_event_unprocessed_until_marked`: a view event and a
click event recorded on the empty database are created unprocessed, are
returned by the unprocessed query, and are no longer returned after being
marked. -/
theorem c10_event_witness :
    (create_view_event emptyDb "c" "s" none none 0).2.processed_for_stats_at = none
    ∧ (create_view_event emptyDb "c" "s" none none 0).2 ∈
        get_unprocessed_events_for_campaign (create_view_event emptyDb "c" "s" none none 0).1
          "c" "view" 5
    ∧ get_unprocessed_events_for_campaign
        (mark_events_as_processed (create_view_event emptyDb "c" "s" none none 0).1 [0] 1)
        "c" "view" 5 = []
    ∧ (create_click_event emptyDb "c" "s" "l" "u" none none 0).2.processed_for_stats_at = none
    ∧ (create_click_event emptyDb "c" "s" "l" "u" none none 0).2 ∈
        get_unprocessed_events_for_campaign
          (create_click_event emptyDb "c" "s" "l" "u" none none 0).1 "c" "click" 5
    ∧ get_unprocessed_events_for_campaign
        (mark_events_as_processed (create_click_event emptyDb "c" "s" "l" "u" none none 0).1
          [0] 1)
        "c" "click" 5 = [] := by
  have h := c10_event_unprocessed_until_marked emptyDb "c" "s" "l" "u" none none 0 1 5 [0]
    (by simp [emptyDb])
  exact ⟨h.1.1, h.2.1 (by decide), by decide, h.1.2, h.2.2.1 (by decide), by decide⟩

/-- C9: with 3 resolved recipients and batch size 500 the claim requires
exactly one dispatched batch; the orchestrator dispatches none — it raises
at the `to_send` stats write before reaching the batching loop (the loop
itself, `sliceBatches`, would produce the single batch of all 3 ids). -/
theorem c9_no_batch_ever_dispatched :
    (resolveRecipients dbC9 [7]).length = 3
    ∧ sliceBatches (resolveRecipients dbC9 [7]) SUBSCRIBER_BATCH_SIZE = [[10, 11, 12]]
    ∧ (process_campaign_sending_task dbC9 1 noSendFailure 0).isRaised = true
    ∧ (process_campaign_sending_task dbC9 1 noSendFailure 0).db.dispatched_batches = [] := by
  refine ⟨by decide, by decide, by decide, by decide⟩

end ListmonkClone
